import Mathlib

/-!
Verification development for `scripts/setup-chromadb.py`.

The script seeds a ChromaDB vector store with a static catalog of
relationship themes and game contexts, generating embeddings via an
external sentence-transformer model, and runs a few read-only
similarity-search smoke tests.

The embedding below translates the script's data and control flow into
Lean.  The two external collaborators (the ChromaDB document store and
the sentence-transformer embedding model) are not part of the
repository; their behaviour is modelled from the specification's
external-interface description: the store's `add` is an upsert keyed by
record id, `create_collection` fails with a message containing
"already exists" when the name is taken, `query` is a read, and the
embedding model is an abstract pure function passed in as a parameter.
A `World` record carries the store contents, an operation log, a count
of embedding-model invocations, and a queue of injected store-side
faults (used to model "any other store-side failure during create").
-/

set_option autoImplicit false

namespace ChromaSetup

/-- Metadata values: the script stores strings and one integer
(`examples_count`). -/
inductive MetaValue where
  | str (s : String)
  | int (n : Nat)
  deriving DecidableEq, Repr

/-- Record / collection metadata: a Python dict of string keys. -/
abbrev Metadata := List (String × MetaValue)

/-- One stored record of a collection: document text, metadata and
embedding vector (vector components modelled as rationals). -/
structure StoredRecord where
  document : String
  metadata : Metadata
  embedding : List Rat
  deriving DecidableEq, Repr

/-- A named collection of the document store: creation metadata plus an
association list from record id to stored record. -/
structure Collection where
  name : String
  meta : Metadata
  records : List (String × StoredRecord)
  deriving DecidableEq, Repr

/-- The kind of each store operation, recorded in an operation log so
that read-only behaviour is observable. -/
inductive OpKind where
  | create
  | get
  | add
  | query
  | count
  deriving DecidableEq, Repr

/-- The state threaded through the script: the store's collections, the
chronological log of store operations, the number of calls made to the
embedding model, and a queue of injected store-side faults consumed by
`create_collection` (modelling arbitrary store failures, per the
spec's error taxonomy). -/
structure World where
  collections : List (String × Collection)
  ops : List OpKind
  embedCalls : Nat
  faults : List (Option String)
  deriving DecidableEq, Repr

/-- First-match association lookup (Python dict access / store lookup
by name). -/
def assocFind {α : Type} (l : List (String × α)) (k : String) : Option α :=
  match l with
  | [] => none
  | (k1, v) :: rest => if k1 = k then some v else assocFind rest k

/-- Python substring containment `pat in s`, as list-infix on the
underlying characters. -/
def containsSub (s pat : String) : Bool :=
  decide (List.IsInfix pat.data s.data)

/-- Modelled from the spec: the Document Store's `create_collection`
fails with an AlreadyExists error (message containing "already exists")
when the name is taken; any other store-side failure is modelled by
consuming the head of the fault queue.  On success a fresh empty
collection is registered and its handle (its name) returned. -/
def createCollection (w : World) (name : String) (meta : Metadata) :
    World × Except String String :=
  let fault := w.faults.headD none
  let w1 : World :=
    { w with faults := w.faults.tail, ops := w.ops ++ [OpKind.create] }
  match fault with
  | some msg => (w1, Except.error msg)
  | none =>
    if (assocFind w1.collections name).isSome then
      (w1, Except.error ("Collection " ++ name ++ " already exists"))
    else
      ({ w1 with collections :=
          w1.collections ++ [(name, { name := name, meta := meta, records := [] })] },
       Except.ok name)

/-- Modelled from the spec: `get_collection` returns a handle to the
named collection, failing if it does not exist. -/
def getCollection (w : World) (name : String) : World × Except String String :=
  let w1 : World := { w with ops := w.ops ++ [OpKind.get] }
  if (assocFind w1.collections name).isSome then
    (w1, Except.ok name)
  else
    (w1, Except.error ("Collection " ++ name ++ " does not exist"))

/-- Insert-or-replace of one record, keyed by id (the spec's upsert). -/
def upsertRec (recs : List (String × StoredRecord)) (id : String)
    (r : StoredRecord) : List (String × StoredRecord) :=
  match recs with
  | [] => [(id, r)]
  | (k, v) :: rest =>
    if k = id then (id, r) :: rest else (k, v) :: upsertRec rest id r

/-- Upsert a batch of records in order. -/
def addEntries (recs entries : List (String × StoredRecord)) :
    List (String × StoredRecord) :=
  entries.foldl (fun acc e => upsertRec acc e.fst e.snd) recs

/-- Zip the four parallel argument lists of `collection.add` into
id-keyed records (truncating to the shortest, as `zip` does). -/
def zipEntries (ids documents : List String) (metadatas : List Metadata)
    (embeddings : List (List Rat)) : List (String × StoredRecord) :=
  (ids.zip ((documents.zip metadatas).zip embeddings)).map
    (fun e => (e.fst, StoredRecord.mk e.snd.fst.fst e.snd.fst.snd e.snd.snd))

/-- Update the named collection in place, leaving the rest alone. -/
def updateColl (cs : List (String × Collection)) (h : String)
    (f : Collection → Collection) : List (String × Collection) :=
  match cs with
  | [] => []
  | (n, c) :: rest =>
    if n = h then (n, f c) :: rest else (n, c) :: updateColl rest h f

/-- Modelled from the spec: `collection.add(documents, metadatas, ids,
embeddings)` upserts all records into the collection keyed by their
stable id. -/
def collectionAdd (w : World) (handle : String) (documents : List String)
    (metadatas : List Metadata) (ids : List String)
    (embeddings : List (List Rat)) : World :=
  { w with
    ops := w.ops ++ [OpKind.add],
    collections := updateColl w.collections handle
      (fun c =>
        { c with
          records := addEntries c.records
            (zipEntries ids documents metadatas embeddings) }) }

/-- Per-query result as surfaced by the store: outer lists are indexed
by query text, inner lists by rank. -/
structure QueryResult where
  documents : List (List String)
  metadatas : List (List Metadata)
  distances : List (List Rat)
  deriving Repr

/-- Modelled from the spec: `collection.query(query_texts, n_results)`
is a pure read; the ranking (distance metric and order) is defined by
the store, so it is abstracted as the `rank` parameter. -/
def queryCollection
    (rank : Collection → String → Nat → List String × List Metadata × List Rat)
    (w : World) (handle : String) (queryTexts : List String) (nResults : Nat) :
    World × QueryResult :=
  let c := (assocFind w.collections handle).getD
    { name := handle, meta := [], records := [] }
  ({ w with ops := w.ops ++ [OpKind.query] },
   { documents := queryTexts.map (fun t => (rank c t nResults).1),
     metadatas := queryTexts.map (fun t => (rank c t nResults).2.1),
     distances := queryTexts.map (fun t => (rank c t nResults).2.2) })

/-- Modelled from the spec: `collection.count()` reports the number of
stored records. -/
def collectionCount (w : World) (handle : String) : World × Nat :=
  ({ w with ops := w.ops ++ [OpKind.count] },
   ((assocFind w.collections handle).map (fun c => c.records.length)).getD 0)

/-- Number of records of the named collection, as an observer on the
world (0 when the collection is absent). -/
def collCount (w : World) (handle : String) : Nat :=
  ((assocFind w.collections handle).map (fun c => c.records.length)).getD 0

/-- The record ids currently stored in the named collection. -/
def collKeys (w : World) (handle : String) : List String :=
  ((assocFind w.collections handle).map
    (fun c => c.records.map Prod.fst)).getD []

/-- One theme record of the static seed catalog. -/
structure ThemeRecord where
  id : String
  theme : String
  description : String
  examples : List String
  deriving DecidableEq, Repr

/-- The `RELATIONSHIP_THEMES` module-level catalog, transcribed from the
script. -/
def RELATIONSHIP_THEMES : List ThemeRecord :=
  [{ id := "resentment",
     theme := "resentment",
     description := "Built-up anger, frustration, or bitterness toward partner",
     examples := [
       "You never help with anything",
       "I\x27m tired of doing everything myself",
       "You don\x27t appreciate what I do",
       "I feel taken for granted",
       "You always leave me to handle things alone"] },
   { id := "disconnection",
     theme := "disconnection",
     description := "Feeling emotionally distant or unconnected from partner",
     examples := [
       "We feel like roommates",
       "I miss feeling close to you",
       "We don\x27t talk anymore",
       "I feel alone even when you\x27re here",
       "We\x27re living parallel lives"] },
   { id := "household_labor",
     theme := "household_labor",
     description := "Conflicts about division of housework and domestic responsibilities",
     examples := [
       "You never do the dishes",
       "I\x27m tired of cleaning up after you",
       "The house is always a mess",
       "I do all the cooking and cleaning",
       "You don\x27t notice when things need to be done"] },
   { id := "appreciation",
     theme := "appreciation",
     description := "Need for recognition and gratitude from partner",
     examples := [
       "You don\x27t see everything I do",
       "I wish you\x27d notice my efforts",
       "I need more acknowledgment",
       "You take me for granted",
       "I work hard and get no thanks"] },
   { id := "communication",
     theme := "communication",
     description := "Issues with how partners talk to each other",
     examples := [
       "You never listen to me",
       "You interrupt me constantly",
       "We can\x27t have a conversation without fighting",
       "You shut down when I try to talk",
       "You don\x27t hear what I\x27m saying"] },
   { id := "time_together",
     theme := "time_together",
     description := "Desire for more quality time and attention from partner",
     examples := [
       "We never spend time together",
       "You\x27re always on your phone",
       "You prioritize everything over us",
       "I miss our connection time",
       "We need more couple time"] },
   { id := "financial_stress",
     theme := "financial_stress",
     description := "Money-related tensions and disagreements",
     examples := [
       "We can\x27t afford this",
       "You spend too much money",
       "I\x27m worried about our finances",
       "We have different spending priorities",
       "Money is always tight"] },
   { id := "intimacy",
     theme := "intimacy",
     description := "Physical and emotional intimacy concerns",
     examples := [
       "We\x27re not intimate anymore",
       "I miss physical closeness",
       "You don\x27t initiate affection",
       "I feel rejected when you pull away",
       "We\x27ve lost our spark"] },
   { id := "parenting",
     theme := "parenting",
     description := "Disagreements about child-rearing and parenting approaches",
     examples := [
       "You\x27re too strict with the kids",
       "I do all the parenting work",
       "We disagree on discipline",
       "You don\x27t help with bedtime",
       "The kids listen to you but not me"] },
   { id := "trust",
     theme := "trust",
     description := "Issues with honesty, reliability, and faith in partner",
     examples := [
       "I don\x27t trust you anymore",
       "You broke your promise again",
       "I can\x27t rely on you",
       "You hide things from me",
       "I need to know you\x27re being honest"] },
   { id := "control",
     theme := "control",
     description := "Power dynamics and control issues in the relationship",
     examples := [
       "You always have to be right",
       "You make all the decisions",
       "I feel controlled by you",
       "You don\x27t consider my opinions",
       "It\x27s your way or the highway"] },
   { id := "support",
     theme := "support",
     description := "Need for emotional and practical support from partner",
     examples := [
       "You\x27re not there for me",
       "I need you to have my back",
       "You don\x27t support my dreams",
       "I feel like I\x27m on my own",
       "You don\x27t encourage me"] },
   { id := "in_laws",
     theme := "in_laws",
     description := "Conflicts involving extended family members",
     examples := [
       "Your mother interferes too much",
       "You always side with your family",
       "I don\x27t feel welcome with your relatives",
       "Your parents don\x27t respect me",
       "Family events are stressful"] },
   { id := "jealousy",
     theme := "jealousy",
     description := "Feelings of jealousy or insecurity about partner\x27s relationships",
     examples := [
       "You flirt with other people",
       "I feel threatened by your friend",
       "You give others more attention",
       "I\x27m worried about your coworker",
       "You text them too much"] },
   { id := "personal_growth",
     theme := "personal_growth",
     description := "Individual development and self-improvement journeys",
     examples := [
       "You don\x27t support my goals",
       "I\x27m growing and you\x27re staying the same",
       "We want different things now",
       "I need space to develop myself",
       "You hold me back from changing"] }]

/-- One game-context record of the static catalog defined inside
`populate_game_contexts`. -/
structure GameContext where
  id : String
  context : String
  game_id : String
  rationale : String
  themes : List String
  deriving DecidableEq, Repr

/-- The `game_contexts` list, transcribed from the body of
`populate_game_contexts`. -/
def game_contexts : List GameContext :=
  [{ id := "iwr_daily_checkin",
     context := "daily emotional check-in feeling disconnected need quick connection",
     game_id := "iwr",
     rationale := "Quick daily emotional check-in to rebuild connection",
     themes := ["disconnection", "communication"] },
   { id := "pause_conflict_spiral",
     context := "arguing fighting conflict spiraling elevated emotions",
     game_id := "pause",
     rationale := "Stop the conflict spiral and take accountability",
     themes := ["communication", "control"] },
   { id := "and_what_else_resentment",
     context := "built up resentment anger frustration unexpressed",
     game_id := "and_what_else",
     rationale := "Clear accumulated resentments safely",
     themes := ["resentment", "communication"] },
   { id := "pillar_talk_foundation",
     context := "relationship foundation values principles basic connection",
     game_id := "pillar_talk",
     rationale := "Reconnect with relationship foundations",
     themes := ["support", "communication"] },
   { id := "closeness_counter_intimacy",
     context := "feeling distant disconnected roommates physical emotional distance",
     game_id := "closeness_counter",
     rationale := "Explore physical and emotional distance patterns",
     themes := ["disconnection", "intimacy"] },
   { id := "switch_perspective_taking",
     context := "different views opinions perspective understanding disagreement",
     game_id := "switch",
     rationale := "Build empathy by arguing partner\x27s position",
     themes := ["communication", "control"] },
   { id := "bomb_squad_recurring_issue",
     context := "same fight recurring issue never resolved keeps coming up",
     game_id := "bomb_squad",
     rationale := "Systematically defuse a recurring conflict",
     themes := ["communication", "resentment"] },
   { id := "seven_nights_vulnerability",
     context := "need vulnerability sharing truth deeper connection intimacy",
     game_id := "seven_nights",
     rationale := "Build vulnerability and truth-sharing muscle",
     themes := ["intimacy", "trust"] }]

/-- Python `json.dumps` on a list of plain strings (the only shape the
script serializes), with the default ", " item separator. -/
def jsonDumps (xs : List String) : String :=
  "[" ++ String.intercalate ", " (xs.map (fun s => "\"" ++ s ++ "\"")) ++ "]"

/-- The embedding step `generate_embeddings`: one call to the external sentence-transformer
model on the whole batch of texts.  The model itself is the abstract
parameter `embed`; the world records how many times it was invoked. -/
def generate_embeddings (embed : List String → List (List Rat)) (w : World)
    (texts : List String) : World × List (List Rat) :=
  ({ w with embedCalls := w.embedCalls + 1 }, embed texts)

/-- The text projection used for a theme record: the Python f-string
joining the theme label, the description and the space-joined example
phrases with single spaces. -/
def themeDocument (t : ThemeRecord) : String :=
  t.theme ++ " " ++ t.description ++ " " ++ String.intercalate " " t.examples

/-- The metadata projection used for a theme record. -/
def themeMetadata (t : ThemeRecord) : Metadata :=
  [("theme", MetaValue.str t.theme),
   ("description", MetaValue.str t.description),
   ("examples_count", MetaValue.int t.examples.length)]

/-- The loader `populate_relationship_themes`: builds documents, metadatas and ids
from `RELATIONSHIP_THEMES`, generates embeddings in one batched call,
and adds everything to the collection.  The Python function is annotated
`-> None` and has no return statement, so its return value is `none`. -/
def populate_relationship_themes (embed : List String → List (List Rat))
    (w : World) (collection : String) : World × Option Nat :=
  let documents := RELATIONSHIP_THEMES.map themeDocument
  let metadatas := RELATIONSHIP_THEMES.map themeMetadata
  let ids := RELATIONSHIP_THEMES.map (fun t => t.id)
  let p := generate_embeddings embed w documents
  (collectionAdd p.fst collection documents metadatas ids p.snd, none)

/-- The metadata projection used for a game-context record
(`themes` is JSON-serialized to a string). -/
def gameContextMetadata (c : GameContext) : Metadata :=
  [("game_id", MetaValue.str c.game_id),
   ("rationale", MetaValue.str c.rationale),
   ("themes", MetaValue.str (jsonDumps c.themes))]

/-- The loader `populate_game_contexts`: same shape as the themes loader, over the
`game_contexts` catalog, with the context text as document.  Also
annotated `-> None` in the source, so its return value is `none`. -/
def populate_game_contexts (embed : List String → List (List Rat))
    (w : World) (collection : String) : World × Option Nat :=
  let documents := game_contexts.map (fun c => c.context)
  let metadatas := game_contexts.map gameContextMetadata
  let ids := game_contexts.map (fun c => c.id)
  let p := generate_embeddings embed w documents
  (collectionAdd p.fst collection documents metadatas ids p.snd, none)

/-- One try/except block of `create_collections`: try to create the
collection; when the raised error's text contains "already exists",
recover by getting the existing collection; re-raise anything else. -/
def ensureCollection (w : World) (name desc : String) :
    World × Except String String :=
  match createCollection w name [("description", MetaValue.str desc)] with
  | (w1, Except.ok h) => (w1, Except.ok h)
  | (w1, Except.error e) =>
    if containsSub e "already exists" then getCollection w1 name
    else (w1, Except.error e)

/-- The function `create_collections`: ensures the three named collections exist,
returning the handle dictionary in insertion order; the first failure
that is not recovered propagates out. -/
def create_collections (w : World) :
    World × Except String (List (String × String)) :=
  match ensureCollection w "relationship_themes"
      "Semantic themes for relationship conflicts and conversations" with
  | (w1, Except.error e) => (w1, Except.error e)
  | (w1, Except.ok h1) =>
    match ensureCollection w1 "translator_history"
        "Historical translator outputs for pattern learning" with
    | (w2, Except.error e) => (w2, Except.error e)
    | (w2, Except.ok h2) =>
      match ensureCollection w2 "game_contexts"
          "Game recommendation contexts and patterns" with
      | (w3, Except.error e) => (w3, Except.error e)
      | (w3, Except.ok h3) =>
        (w3, Except.ok [("relationship_themes", h1),
                        ("translator_history", h2),
                        ("game_contexts", h3)])

/-- The four smoke-test queries of `test_similarity_search`. -/
def test_queries : List String :=
  ["I\x27m so tired of doing all the housework",
   "We never spend time together anymore",
   "I don\x27t trust you",
   "We keep fighting about the same thing"]

/-- The verifier `test_similarity_search`: for each test query, a 3-nearest query
against the relationship_themes collection; the reported lines pair each
match's `theme` metadata with its distance.  Read-only. -/
def test_similarity_search
    (rank : Collection → String → Nat → List String × List Metadata × List Rat)
    (w : World) (collections : List (String × String)) :
    World × List (List (Option MetaValue × Rat)) :=
  let themesCollection := (assocFind collections "relationship_themes").getD ""
  test_queries.foldl
    (fun acc query =>
      let p := queryCollection rank acc.fst themesCollection [query] 3
      let docs := p.snd.documents.headD []
      let metas := p.snd.metadatas.headD []
      let dists := p.snd.distances.headD []
      let report := (docs.zip (metas.zip dists)).map
        (fun e => (assocFind e.snd.fst "theme", e.snd.snd))
      (p.fst, acc.snd ++ [report]))
    (w, [])

/-- The function `main`: create collections, populate themes and game contexts, run
the smoke tests, and report per-collection counts in handle-dictionary
order; any unrecovered error propagates out. -/
def main (embed : List String → List (List Rat))
    (rank : Collection → String → Nat → List String × List Metadata × List Rat)
    (w : World) : World × Except String (List (String × Nat)) :=
  match create_collections w with
  | (w1, Except.error e) => (w1, Except.error e)
  | (w1, Except.ok colls) =>
    let p1 := populate_relationship_themes embed w1
      ((assocFind colls "relationship_themes").getD "")
    let p2 := populate_game_contexts embed p1.fst
      ((assocFind colls "game_contexts").getD "")
    let p3 := test_similarity_search rank p2.fst colls
    let p4 := colls.foldl
      (fun acc c =>
        let q := collectionCount acc.fst c.snd
        (q.fst, acc.snd ++ [(c.fst, q.snd)]))
      (p3.fst, ([] : List (String × Nat)))
    (p4.fst, Except.ok p4.snd)

/-- A store with no collections, an empty log and no injected faults:
the initial state of a fresh run. -/
def initialWorld : World :=
  { collections := [], ops := [], embedCalls := 0, faults := [] }

/-- The ids of the theme catalog, in catalog order. -/
def themeIds : List String := RELATIONSHIP_THEMES.map (fun t => t.id)

/-- The ids of the game-context catalog, in catalog order. -/
def gameContextIds : List String := game_contexts.map (fun c => c.id)

/-- A concrete embedding model used to instantiate witnesses: one
constant-vector embedding per input text (so the batch-count invariant
holds). -/
def exEmbed : List String → List (List Rat) :=
  fun texts => texts.map (fun _ => [0])

/-- A concrete store-side ranking used to instantiate witnesses: the
store returns no matches. -/
def exRank : Collection → String → Nat → List String × List Metadata × List Rat :=
  fun _ _ _ => ([], [], [])

/-- A world holding one freshly created, still-empty
relationship_themes collection. -/
def themesWorld : World :=
  { collections := [("relationship_themes",
      { name := "relationship_themes", meta := [], records := [] })],
    ops := [], embedCalls := 0, faults := [] }

/-- A world whose two data collections already hold a record for every
catalog id (as after a previous load). -/
def populatedWorld : World :=
  { collections :=
      [("relationship_themes",
        { name := "relationship_themes", meta := [],
          records := RELATIONSHIP_THEMES.map
            (fun t => (t.id, { document := "", metadata := [], embedding := [] })) }),
       ("game_contexts",
        { name := "game_contexts", meta := [],
          records := game_contexts.map
            (fun c => (c.id, { document := "", metadata := [], embedding := [] })) })],
    ops := [], embedCalls := 0, faults := [] }

/-- A world whose next `create_collection` call fails with a
non-AlreadyExists store error. -/
def faultWorld : World :=
  { collections := [], ops := [], embedCalls := 0,
    faults := [some "connection refused"] }

/-- A world holding freshly created, still-empty relationship_themes
and game_contexts collections. -/
def bothWorld : World :=
  { collections :=
      [("relationship_themes",
        { name := "relationship_themes", meta := [], records := [] }),
       ("game_contexts",
        { name := "game_contexts", meta := [], records := [] })],
    ops := [], embedCalls := 0, faults := [] }

/-- The stored record of a collection under a given id, if any. -/
def collRecord (w : World) (handle id : String) : Option StoredRecord :=
  ((assocFind w.collections handle).map (fun c => assocFind c.records id)).getD none

/-- The handle dictionary produced by a successful `create_collections`
run (each handle is the collection's name). -/
def ccColls : List (String × String) :=
  [("relationship_themes", "relationship_themes"),
   ("translator_history", "translator_history"),
   ("game_contexts", "game_contexts")]

/-- The world reached by `create_collections` from `initialWorld`:
three fresh empty collections and three create operations logged. -/
def ccWorld : World :=
  { collections :=
      [("relationship_themes",
        { name := "relationship_themes",
          meta := [("description", MetaValue.str
            "Semantic themes for relationship conflicts and conversations")],
          records := [] }),
       ("translator_history",
        { name := "translator_history",
          meta := [("description", MetaValue.str
            "Historical translator outputs for pattern learning")],
          records := [] }),
       ("game_contexts",
        { name := "game_contexts",
          meta := [("description", MetaValue.str
            "Game recommendation contexts and patterns")],
          records := [] })],
    ops := [OpKind.create, OpKind.create, OpKind.create],
    embedCalls := 0, faults := [] }

/-! ### Helper lemmas about the store model -/

theorem assocFind_upsertRec_self (recs : List (String × StoredRecord))
    (id : String) (r : StoredRecord) :
    assocFind (upsertRec recs id r) id = some r := by
  induction recs with
  | nil => simp [upsertRec, assocFind]
  | cons p rest ih =>
    obtain ⟨k, v⟩ := p
    by_cases h : k = id
    · simp [upsertRec, h, assocFind]
    · simp [upsertRec, h, assocFind, ih]

theorem assocFind_upsertRec_ne (recs : List (String × StoredRecord))
    (id : String) (r : StoredRecord) (k : String) (h : k ≠ id) :
    assocFind (upsertRec recs id r) k = assocFind recs k := by
  induction recs with
  | nil => simp [upsertRec, assocFind, Ne.symm h]
  | cons p rest ih =>
    obtain ⟨k1, v⟩ := p
    by_cases h1 : k1 = id
    · subst h1
      simp [upsertRec, assocFind, Ne.symm h]
    · by_cases h2 : k1 = k <;> simp [upsertRec, assocFind, h1, h2, h, ih]

theorem keys_upsertRec (recs : List (String × StoredRecord))
    (id : String) (r : StoredRecord) :
    (upsertRec recs id r).map Prod.fst =
      if id ∈ recs.map Prod.fst then recs.map Prod.fst
      else recs.map Prod.fst ++ [id] := by
  induction recs with
  | nil => simp [upsertRec]
  | cons p rest ih =>
    obtain ⟨k, v⟩ := p
    by_cases h : k = id
    · subst h; simp [upsertRec]
    · simp only [upsertRec, if_neg h, List.map_cons, ih, List.mem_cons,
        Ne.symm h, false_or]
      split <;> simp

theorem length_upsertRec (recs : List (String × StoredRecord))
    (id : String) (r : StoredRecord) :
    (upsertRec recs id r).length =
      if id ∈ recs.map Prod.fst then recs.length else recs.length + 1 := by
  have h := congrArg List.length (keys_upsertRec recs id r)
  simp only [List.length_map, apply_ite List.length, List.length_append,
    List.length_cons, List.length_nil] at h
  simpa using h

theorem addEntries_nil (recs : List (String × StoredRecord)) :
    addEntries recs [] = recs := rfl

theorem addEntries_cons (recs : List (String × StoredRecord))
    (e : String × StoredRecord) (entries : List (String × StoredRecord)) :
    addEntries recs (e :: entries) =
      addEntries (upsertRec recs e.1 e.2) entries := rfl

theorem keys_addEntries_of_subset (entries recs : List (String × StoredRecord))
    (h : ∀ e ∈ entries, e.1 ∈ recs.map Prod.fst) :
    (addEntries recs entries).map Prod.fst = recs.map Prod.fst := by
  induction entries generalizing recs with
  | nil => rfl
  | cons e es ih =>
    have hk : e.1 ∈ recs.map Prod.fst := h e (by simp)
    have hkeys : (upsertRec recs e.1 e.2).map Prod.fst = recs.map Prod.fst := by
      rw [keys_upsertRec, if_pos hk]
    rw [addEntries_cons, ih _ (fun x hx => by
      rw [hkeys]; exact h x (List.mem_cons_of_mem _ hx)), hkeys]

theorem length_addEntries_of_subset (entries recs : List (String × StoredRecord))
    (h : ∀ e ∈ entries, e.1 ∈ recs.map Prod.fst) :
    (addEntries recs entries).length = recs.length := by
  have hk := congrArg List.length (keys_addEntries_of_subset entries recs h)
  simpa using hk

theorem keys_addEntries_of_disjoint (entries recs : List (String × StoredRecord))
    (hnd : (entries.map Prod.fst).Nodup)
    (hdisj : ∀ e ∈ entries, e.1 ∉ recs.map Prod.fst) :
    (addEntries recs entries).map Prod.fst =
      recs.map Prod.fst ++ entries.map Prod.fst := by
  induction entries generalizing recs with
  | nil => simp [addEntries_nil]
  | cons e es ih =>
    have hk : e.1 ∉ recs.map Prod.fst := hdisj e (by simp)
    have hkeys : (upsertRec recs e.1 e.2).map Prod.fst =
        recs.map Prod.fst ++ [e.1] := by
      rw [keys_upsertRec, if_neg hk]
    simp only [List.map_cons, List.nodup_cons] at hnd
    rw [addEntries_cons, ih _ hnd.2 (fun x hx => by
      rw [hkeys]
      simp only [List.mem_append, List.mem_singleton, not_or]
      refine ⟨hdisj x (List.mem_cons_of_mem _ hx), ?_⟩
      intro hcon
      exact hnd.1 (hcon ▸ List.mem_map_of_mem Prod.fst hx)), hkeys]
    simp

theorem assocFind_addEntries_not_mem (entries recs : List (String × StoredRecord))
    (k : String) (h : k ∉ entries.map Prod.fst) :
    assocFind (addEntries recs entries) k = assocFind recs k := by
  induction entries generalizing recs with
  | nil => rfl
  | cons e es ih =>
    simp only [List.map_cons, List.mem_cons, not_or] at h
    rw [addEntries_cons, ih _ h.2, assocFind_upsertRec_ne _ _ _ _ h.1]

theorem assocFind_addEntries_mem (entries recs : List (String × StoredRecord))
    (k : String) (v : StoredRecord)
    (hnd : (entries.map Prod.fst).Nodup) (hmem : (k, v) ∈ entries) :
    assocFind (addEntries recs entries) k = some v := by
  induction entries generalizing recs with
  | nil => cases hmem
  | cons e es ih =>
    simp only [List.map_cons, List.nodup_cons] at hnd
    rcases List.mem_cons.mp hmem with he | hes
    · rw [addEntries_cons,
        assocFind_addEntries_not_mem _ _ _ (by rw [← he] at hnd; exact hnd.1),
        ← he, assocFind_upsertRec_self]
    · rw [addEntries_cons]
      exact ih _ hnd.2 hes

theorem assocFind_updateColl_self (cs : List (String × Collection))
    (h : String) (f : Collection → Collection) :
    assocFind (updateColl cs h f) h = (assocFind cs h).map f := by
  induction cs with
  | nil => rfl
  | cons p rest ih =>
    obtain ⟨n, c⟩ := p
    by_cases hn : n = h <;> simp [updateColl, assocFind, hn, ih]

theorem assocFind_updateColl_ne (cs : List (String × Collection))
    (h : String) (f : Collection → Collection) (k : String) (hne : k ≠ h) :
    assocFind (updateColl cs h f) k = assocFind cs k := by
  induction cs with
  | nil => rfl
  | cons p rest ih =>
    obtain ⟨n, c⟩ := p
    by_cases hn : n = h
    · subst hn
      simp [updateColl, assocFind, Ne.symm hne]
    · by_cases hk : n = k <;> simp [updateColl, assocFind, hn, hk, hne, ih]

theorem zipEntries_fst_mem (ids documents : List String)
    (metadatas : List Metadata) (embeddings : List (List Rat))
    (e : String × StoredRecord)
    (he : e ∈ zipEntries ids documents metadatas embeddings) : e.1 ∈ ids := by
  simp only [zipEntries, List.mem_map] at he
  obtain ⟨x, hx, hxe⟩ := he
  obtain ⟨a, b⟩ := x
  have := (List.of_mem_zip hx).1
  rw [← hxe]
  exact this

theorem map_fst_zipEntries (ids documents : List String)
    (metadatas : List Metadata) (embeddings : List (List Rat))
    (hd : documents.length = ids.length) (hm : metadatas.length = ids.length)
    (he : embeddings.length = ids.length) :
    (zipEntries ids documents metadatas embeddings).map Prod.fst = ids := by
  simp only [zipEntries, List.map_map]
  have hone : ((documents.zip metadatas).zip embeddings).length = ids.length := by
    simp [List.length_zip, hd, hm, he]
  have : (Prod.fst ∘ fun e : String × (String × Metadata) × List Rat =>
      (e.fst, StoredRecord.mk e.snd.fst.fst e.snd.fst.snd e.snd.snd)) = Prod.fst := by
    funext e; rfl
  rw [this, List.map_fst_zip]
  omega

theorem length_zipEntries (ids documents : List String)
    (metadatas : List Metadata) (embeddings : List (List Rat))
    (hd : documents.length = ids.length) (hm : metadatas.length = ids.length)
    (he : embeddings.length = ids.length) :
    (zipEntries ids documents metadatas embeddings).length = ids.length := by
  have h := congrArg List.length
    (map_fst_zipEntries ids documents metadatas embeddings hd hm he)
  simpa using h

theorem containsSub_append_right (pre pat : String) :
    containsSub (pre ++ pat) pat = true := by
  simp only [containsSub, decide_eq_true_eq]
  rw [String.data_append]
  exact (List.suffix_append pre.data pat.data).isInfix

theorem collections_collectionAdd (w : World) (h : String)
    (documents : List String) (metadatas : List Metadata) (ids : List String)
    (embeddings : List (List Rat)) :
    (collectionAdd w h documents metadatas ids embeddings).collections =
      updateColl w.collections h
        (fun c =>
          { c with
            records := addEntries c.records
              (zipEntries ids documents metadatas embeddings) }) := rfl

theorem assocFind_collectionAdd_ne (w : World) (h : String)
    (documents : List String) (metadatas : List Metadata) (ids : List String)
    (embeddings : List (List Rat)) (k : String) (hk : k ≠ h) :
    assocFind (collectionAdd w h documents metadatas ids embeddings).collections k =
      assocFind w.collections k := by
  rw [collections_collectionAdd]
  exact assocFind_updateColl_ne _ _ _ _ hk

theorem collCount_collectionAdd_of_subset (w : World) (h : String)
    (documents : List String) (metadatas : List Metadata) (ids : List String)
    (embeddings : List (List Rat))
    (hsub : ∀ id ∈ ids, id ∈ collKeys w h) :
    collCount (collectionAdd w h documents metadatas ids embeddings) h =
      collCount w h := by
  simp only [collCount, collections_collectionAdd, assocFind_updateColl_self]
  cases hfind : assocFind w.collections h with
  | none => simp
  | some c =>
    simp only [Option.map_some', Option.getD_some]
    apply length_addEntries_of_subset
    intro e he
    have h1 : e.1 ∈ ids := zipEntries_fst_mem _ _ _ _ e he
    have h2 := hsub e.1 h1
    simpa [collKeys, hfind] using h2

theorem populate_relationship_themes_eq
    (embed : List String → List (List Rat)) (w : World) (coll : String) :
    populate_relationship_themes embed w coll =
      (collectionAdd { w with embedCalls := w.embedCalls + 1 } coll
        (RELATIONSHIP_THEMES.map themeDocument)
        (RELATIONSHIP_THEMES.map themeMetadata)
        (RELATIONSHIP_THEMES.map (fun t => t.id))
        (embed (RELATIONSHIP_THEMES.map themeDocument)), none) := rfl

theorem populate_game_contexts_eq
    (embed : List String → List (List Rat)) (w : World) (coll : String) :
    populate_game_contexts embed w coll =
      (collectionAdd { w with embedCalls := w.embedCalls + 1 } coll
        (game_contexts.map (fun c => c.context))
        (game_contexts.map gameContextMetadata)
        (game_contexts.map (fun c => c.id))
        (embed (game_contexts.map (fun c => c.context))), none) := rfl

theorem test_similarity_search_fst
    (rank : Collection → String → Nat → List String × List Metadata × List Rat)
    (w : World) (colls : List (String × String)) :
    (test_similarity_search rank w colls).fst =
      { w with ops := w.ops ++
          [OpKind.query, OpKind.query, OpKind.query, OpKind.query] } := by
  simp [test_similarity_search, test_queries, queryCollection]

theorem zipEntries_cons (i : String) (ids : List String) (d : String)
    (ds : List String) (m : Metadata) (ms : List Metadata) (e : List Rat)
    (es : List (List Rat)) :
    zipEntries (i :: ids) (d :: ds) (m :: ms) (e :: es) =
      (i, StoredRecord.mk d m e) :: zipEntries ids ds ms es := rfl

theorem zipEntries_of_maps {α : Type} (fid fdoc : α → String)
    (fmeta : α → Metadata) (L : List α) (embs : List (List Rat))
    (he : embs.length = L.length) (a : α) (ha : a ∈ L) :
    ∃ v : List Rat, (fid a, StoredRecord.mk (fdoc a) (fmeta a) v) ∈
      zipEntries (L.map fid) (L.map fdoc) (L.map fmeta) embs := by
  induction L generalizing embs with
  | nil => cases ha
  | cons x xs ih =>
    cases embs with
    | nil => simp at he
    | cons v vs =>
      simp only [List.map_cons, zipEntries_cons]
      rcases List.mem_cons.mp ha with hax | hmem
      · subst hax
        exact ⟨v, List.mem_cons_self _ _⟩
      · obtain ⟨v1, hv1⟩ := ih vs (by simpa using he) hmem
        exact ⟨v1, List.mem_cons_of_mem _ hv1⟩

theorem length_addEntries_from_nil (entries : List (String × StoredRecord))
    (hnd : (entries.map Prod.fst).Nodup) :
    (addEntries [] entries).length = entries.length := by
  have h := congrArg List.length
    (keys_addEntries_of_disjoint entries [] hnd (by simp))
  simpa using h

theorem collCount_collectionAdd_from_empty (w : World) (h : String)
    (documents : List String) (metadatas : List Metadata) (ids : List String)
    (embeddings : List (List Rat)) (c : Collection)
    (hfind : assocFind w.collections h = some c) (hempty : c.records = [])
    (hd : documents.length = ids.length) (hm : metadatas.length = ids.length)
    (he : embeddings.length = ids.length) (hnd : ids.Nodup) :
    collCount (collectionAdd w h documents metadatas ids embeddings) h =
      ids.length ∧
    collKeys (collectionAdd w h documents metadatas ids embeddings) h = ids := by
  have hfst := map_fst_zipEntries ids documents metadatas embeddings hd hm he
  have hkeys : (addEntries c.records
      (zipEntries ids documents metadatas embeddings)).map Prod.fst = ids := by
    rw [hempty]
    rw [keys_addEntries_of_disjoint _ _ (by rw [hfst]; exact hnd) (by simp)]
    simp [hfst]
  constructor
  · simp only [collCount, collections_collectionAdd, assocFind_updateColl_self,
      hfind, Option.map_some', Option.getD_some]
    have hlen := congrArg List.length hkeys
    simpa using hlen
  · simp only [collKeys, collections_collectionAdd, assocFind_updateColl_self,
      hfind, Option.map_some', Option.getD_some]
    exact hkeys

theorem assocFind_append_self {α : Type} (l : List (String × α)) (k : String)
    (v : α) (h : assocFind l k = none) : assocFind (l ++ [(k, v)]) k = some v := by
  induction l with
  | nil => simp [assocFind]
  | cons p rest ih =>
    obtain ⟨k1, v1⟩ := p
    by_cases hk : k1 = k
    · simp [assocFind, hk] at h
    · simp only [assocFind, hk] at h
      simp [assocFind, hk, ih h]

theorem containsSub_of_suffix (s pre pat : String) (hs : s = pre ++ pat) :
    containsSub s pat = true := by
  subst hs
  simp only [containsSub, decide_eq_true_eq, String.data_append]
  exact (List.suffix_append _ _).isInfix

theorem containsSub_already_exists (name : String) :
    containsSub ("Collection " ++ name ++ " already exists") "already exists" = true := by
  apply containsSub_of_suffix _ ("Collection " ++ name ++ " ") _
  simp only [String.append_assoc]
  rfl

theorem ensure_first_create (w : World) (name desc : String)
    (hfault : w.faults = [])
    (habs : assocFind w.collections name = none) :
    ensureCollection w name desc =
      ({ w with
          faults := [],
          ops := w.ops ++ [OpKind.create],
          collections := w.collections ++
            [(name,
              { name := name,
                meta := [("description", MetaValue.str desc)],
                records := [] })] },
       Except.ok name) := by
  simp [ensureCollection, createCollection, hfault, habs]

theorem ensure_second (w : World) (name desc : String) (hfault : w.faults = [])
    (hpres : (assocFind w.collections name).isSome = true) :
    ensureCollection w name desc =
      ({ w with
          faults := [],
          ops := w.ops ++ [OpKind.create, OpKind.get] },
       Except.ok name) := by
  simp [ensureCollection, createCollection, getCollection, hfault, hpres,
    containsSub_already_exists]

/-! ### Claims -/

/-- C6: id uniqueness of the static catalogs: no two records of
`RELATIONSHIP_THEMES` share an id, and no two records of the
`game_contexts` catalog share an id. -/
theorem catalog_ids_nodup : themeIds.Nodup ∧ gameContextIds.Nodup := by
  constructor <;> decide

/-- C10: every theme label listed in a game-context record's `themes`
field is the id of some record of the `RELATIONSHIP_THEMES` catalog. -/
theorem game_context_themes_are_theme_ids :
    ∀ g ∈ game_contexts, ∀ t ∈ g.themes, t ∈ themeIds := by decide

/-- Witness for C10 at the first game-context record and its first
theme label. -/
theorem game_context_themes_are_theme_ids_witness :
    "disconnection" ∈ themeIds :=
  game_context_themes_are_theme_ids
    (game_contexts.headD
      { id := "", context := "", game_id := "", rationale := "", themes := [] })
    (by decide) "disconnection" (by decide)

/-- C5: the Theme catalog contains 15 records; loading it into an empty
relationship_themes collection stores exactly the catalog's ids and
yields a record count of 15. -/
theorem load_theme_catalog_count_15
    (embed : List String → List (List Rat))
    (hE : ∀ texts, (embed texts).length = texts.length)
    (w : World) (c : Collection)
    (hfind : assocFind w.collections "relationship_themes" = some c)
    (hempty : c.records = []) :
    RELATIONSHIP_THEMES.length = 15 ∧
    collCount (populate_relationship_themes embed w "relationship_themes").fst
      "relationship_themes" = 15 ∧
    collKeys (populate_relationship_themes embed w "relationship_themes").fst
      "relationship_themes" = themeIds := by
  have h15 : (RELATIONSHIP_THEMES.map (fun t => t.id)).length = 15 := rfl
  have hmain := collCount_collectionAdd_from_empty
    { w with embedCalls := w.embedCalls + 1 } "relationship_themes"
    (RELATIONSHIP_THEMES.map themeDocument)
    (RELATIONSHIP_THEMES.map themeMetadata)
    (RELATIONSHIP_THEMES.map (fun t => t.id))
    (embed (RELATIONSHIP_THEMES.map themeDocument)) c hfind hempty
    (by simp) (by simp) (by rw [hE]; simp) (by decide)
  refine ⟨rfl, ?_, ?_⟩
  · have h1 := hmain.1
    rw [h15] at h1
    exact h1
  · exact hmain.2

/-- Witness for C5 on a fresh empty relationship_themes collection with
the constant-vector embedding model. -/
theorem load_theme_catalog_count_15_witness :
    (∀ texts, (exEmbed texts).length = texts.length) ∧
    (RELATIONSHIP_THEMES.length = 15 ∧
     collCount (populate_relationship_themes exEmbed themesWorld
       "relationship_themes").fst "relationship_themes" = 15 ∧
     collKeys (populate_relationship_themes exEmbed themesWorld
       "relationship_themes").fst "relationship_themes" = themeIds) :=
  ⟨fun texts => by simp [exEmbed],
   load_theme_catalog_count_15 exEmbed (fun texts => by simp [exEmbed])
     themesWorld { name := "relationship_themes", meta := [], records := [] }
     (by decide) rfl⟩

/-- C1: when a collection already contains every catalog id, running the
populate step again leaves its record count unchanged and returns
normally, because records are upserted keyed by their stable id. -/
theorem populate_twice_count_unchanged
    (embed : List String → List (List Rat)) (w : World)
    (hT : ∀ id ∈ themeIds, id ∈ collKeys w "relationship_themes")
    (hG : ∀ id ∈ gameContextIds, id ∈ collKeys w "game_contexts") :
    collCount (populate_relationship_themes embed w "relationship_themes").fst
      "relationship_themes" = collCount w "relationship_themes" ∧
    collCount (populate_game_contexts embed w "game_contexts").fst
      "game_contexts" = collCount w "game_contexts" := by
  constructor
  · exact collCount_collectionAdd_of_subset
      { w with embedCalls := w.embedCalls + 1 } "relationship_themes"
      (RELATIONSHIP_THEMES.map themeDocument)
      (RELATIONSHIP_THEMES.map themeMetadata)
      themeIds
      (embed (RELATIONSHIP_THEMES.map themeDocument))
      (fun id hid => hT id hid)
  · exact collCount_collectionAdd_of_subset
      { w with embedCalls := w.embedCalls + 1 } "game_contexts"
      (game_contexts.map (fun c => c.context))
      (game_contexts.map gameContextMetadata)
      gameContextIds
      (embed (game_contexts.map (fun c => c.context)))
      (fun id hid => hG id hid)

/-- Witness for C1 on a world whose collections already hold every
catalog id. -/
theorem populate_twice_count_unchanged_witness :
    (∀ id ∈ themeIds, id ∈ collKeys populatedWorld "relationship_themes") ∧
    (collCount (populate_relationship_themes exEmbed populatedWorld
        "relationship_themes").fst "relationship_themes" =
      collCount populatedWorld "relationship_themes" ∧
     collCount (populate_game_contexts exEmbed populatedWorld
        "game_contexts").fst "game_contexts" =
      collCount populatedWorld "game_contexts") :=
  ⟨by decide,
   populate_twice_count_unchanged exEmbed populatedWorld (by decide) (by decide)⟩

/-- C2 counterexample: `populate_relationship_themes` writes the
catalog's 15 records but returns `none` (the Python function is
annotated `-> None` and has no return statement), not the number of
records written. -/
theorem populate_return_value_counterexample :
    (populate_relationship_themes exEmbed themesWorld
      "relationship_themes").snd ≠ some RELATIONSHIP_THEMES.length := by
  rw [populate_relationship_themes_eq]
  simp

/-- C2 amended: a successful populate call writes exactly the catalog's
N records (N = 15 themes, resp. N = 8 game contexts, counted from an
empty collection) and its return value is `none`, not N. -/
theorem populate_writes_catalog_returns_none
    (embed : List String → List (List Rat))
    (hE : ∀ texts, (embed texts).length = texts.length)
    (w : World) (cT cG : Collection)
    (hT : assocFind w.collections "relationship_themes" = some cT)
    (hTe : cT.records = [])
    (hG : assocFind w.collections "game_contexts" = some cG)
    (hGe : cG.records = []) :
    (populate_relationship_themes embed w "relationship_themes").snd = none ∧
    collCount (populate_relationship_themes embed w "relationship_themes").fst
      "relationship_themes" = RELATIONSHIP_THEMES.length ∧
    (populate_game_contexts embed w "game_contexts").snd = none ∧
    collCount (populate_game_contexts embed w "game_contexts").fst
      "game_contexts" = game_contexts.length := by
  refine ⟨rfl, ?_, rfl, ?_⟩
  · have h := (collCount_collectionAdd_from_empty
      { w with embedCalls := w.embedCalls + 1 } "relationship_themes"
      (RELATIONSHIP_THEMES.map themeDocument)
      (RELATIONSHIP_THEMES.map themeMetadata)
      themeIds (embed (RELATIONSHIP_THEMES.map themeDocument)) cT hT hTe
      (by simp [themeIds]) (by simp [themeIds]) (by rw [hE]; simp [themeIds])
      (by decide)).1
    have hlen : themeIds.length = RELATIONSHIP_THEMES.length := by
      simp [themeIds]
    rw [hlen] at h
    exact h
  · have h := (collCount_collectionAdd_from_empty
      { w with embedCalls := w.embedCalls + 1 } "game_contexts"
      (game_contexts.map (fun c => c.context))
      (game_contexts.map gameContextMetadata)
      gameContextIds (embed (game_contexts.map (fun c => c.context))) cG hG hGe
      (by simp [gameContextIds]) (by simp [gameContextIds])
      (by rw [hE]; simp [gameContextIds]) (by decide)).1
    have hlen : gameContextIds.length = game_contexts.length := by
      simp [gameContextIds]
    rw [hlen] at h
    exact h

/-- Witness for the amended C2 on fresh empty collections. -/
theorem populate_writes_catalog_returns_none_witness :
    (∀ texts, (exEmbed texts).length = texts.length) ∧
    ((populate_relationship_themes exEmbed bothWorld
        "relationship_themes").snd = none ∧
     collCount (populate_relationship_themes exEmbed bothWorld
        "relationship_themes").fst "relationship_themes" =
       RELATIONSHIP_THEMES.length ∧
     (populate_game_contexts exEmbed bothWorld "game_contexts").snd = none ∧
     collCount (populate_game_contexts exEmbed bothWorld
        "game_contexts").fst "game_contexts" = game_contexts.length) :=
  ⟨fun texts => by simp [exEmbed],
   populate_writes_catalog_returns_none exEmbed (fun texts => by simp [exEmbed])
     bothWorld { name := "relationship_themes", meta := [], records := [] }
     { name := "game_contexts", meta := [], records := [] }
     (by decide) rfl (by decide) rfl⟩

/-- C7: each theme record's stored document is the concatenation of its
label, its description and its example phrases joined by single spaces,
and the embeddings of one populate call come from a single batched call
to the embedding model. -/
theorem theme_documents_projection_single_batch
    (embed : List String → List (List Rat))
    (hE : ∀ texts, (embed texts).length = texts.length)
    (w : World) (c : Collection)
    (hfind : assocFind w.collections "relationship_themes" = some c)
    (t : ThemeRecord) (ht : t ∈ RELATIONSHIP_THEMES) :
    (∃ r, collRecord (populate_relationship_themes embed w
        "relationship_themes").fst "relationship_themes" t.id = some r ∧
      r.document = t.theme ++ " " ++ t.description ++ " " ++
        String.intercalate " " t.examples) ∧
    (populate_relationship_themes embed w "relationship_themes").fst.embedCalls
      = w.embedCalls + 1 := by
  refine ⟨?_, rfl⟩
  obtain ⟨v, hv⟩ := zipEntries_of_maps (fun t => t.id) themeDocument
    themeMetadata RELATIONSHIP_THEMES
    (embed (RELATIONSHIP_THEMES.map themeDocument)) (by rw [hE]; simp) t ht
  refine ⟨StoredRecord.mk (themeDocument t) (themeMetadata t) v, ?_, rfl⟩
  have hnd : ((zipEntries (RELATIONSHIP_THEMES.map (fun t => t.id))
      (RELATIONSHIP_THEMES.map themeDocument)
      (RELATIONSHIP_THEMES.map themeMetadata)
      (embed (RELATIONSHIP_THEMES.map themeDocument))).map Prod.fst).Nodup := by
    rw [map_fst_zipEntries _ _ _ _ (by simp) (by simp) (by rw [hE]; simp)]
    decide
  have hlook := assocFind_addEntries_mem _ c.records t.id _ hnd hv
  simp only [collRecord, populate_relationship_themes_eq,
    collections_collectionAdd, assocFind_updateColl_self, hfind,
    Option.map_some', Option.getD_some]
  exact hlook

/-- Witness for C7 at the first catalog record. -/
theorem theme_documents_projection_single_batch_witness :
    ((RELATIONSHIP_THEMES.headD
        { id := "", theme := "", description := "", examples := [] }) ∈
      RELATIONSHIP_THEMES) ∧
    ((∃ r, collRecord (populate_relationship_themes exEmbed themesWorld
        "relationship_themes").fst "relationship_themes"
        (RELATIONSHIP_THEMES.headD
          { id := "", theme := "", description := "", examples := [] }).id =
          some r ∧
      r.document = (RELATIONSHIP_THEMES.headD
          { id := "", theme := "", description := "", examples := [] }).theme
        ++ " " ++ (RELATIONSHIP_THEMES.headD
          { id := "", theme := "", description := "", examples := [] }).description
        ++ " " ++ String.intercalate " " (RELATIONSHIP_THEMES.headD
          { id := "", theme := "", description := "", examples := [] }).examples) ∧
     (populate_relationship_themes exEmbed themesWorld
        "relationship_themes").fst.embedCalls = themesWorld.embedCalls + 1) :=
  ⟨by decide,
   theme_documents_projection_single_batch exEmbed
     (fun texts => by simp [exEmbed]) themesWorld
     { name := "relationship_themes", meta := [], records := [] } (by decide)
     (RELATIONSHIP_THEMES.headD
       { id := "", theme := "", description := "", examples := [] })
     (by decide)⟩

/-- C3: collection creation is idempotent: when the store reports no
other failure, an ensure-collection step succeeds and returns the
collection's name as handle, and running the same step again succeeds
with the same handle — the second attempt's AlreadyExists failure is
recovered by fetching the existing collection — leaving the store's
contents unchanged. -/
theorem ensure_collection_idempotent (w : World) (name desc : String)
    (hfault : w.faults = []) :
    ∃ w1 h, ensureCollection w name desc = (w1, Except.ok h) ∧ h = name ∧
      (assocFind w1.collections name).isSome = true ∧
      ∃ w2, ensureCollection w1 name desc = (w2, Except.ok h) ∧
        w2.collections = w1.collections := by
  by_cases hp : (assocFind w.collections name).isSome
  · refine ⟨_, name, ensure_second w name desc hfault hp, rfl, hp, ?_⟩
    exact ⟨_, ensure_second _ name desc rfl hp, rfl⟩
  · have habs : assocFind w.collections name = none :=
      Option.not_isSome_iff_eq_none.mp hp
    refine ⟨_, name, ensure_first_create w name desc hfault habs, rfl, ?_, ?_⟩
    · rw [show assocFind (w.collections ++
          [(name, { name := name,
                    meta := [("description", MetaValue.str desc)],
                    records := [] })]) name =
          some { name := name,
                 meta := [("description", MetaValue.str desc)],
                 records := [] } from assocFind_append_self _ _ _ habs]
      rfl
    · refine ⟨_, ensure_second _ name desc rfl ?_, rfl⟩
      rw [show assocFind (w.collections ++
          [(name, { name := name,
                    meta := [("description", MetaValue.str desc)],
                    records := [] })]) name =
          some { name := name,
                 meta := [("description", MetaValue.str desc)],
                 records := [] } from assocFind_append_self _ _ _ habs]
      rfl

/-- Witness for C3 from the empty store. -/
theorem ensure_collection_idempotent_witness :
    initialWorld.faults = [] ∧
    (∃ w1 h, ensureCollection initialWorld "relationship_themes" "d" =
        (w1, Except.ok h) ∧ h = "relationship_themes" ∧
      (assocFind w1.collections "relationship_themes").isSome = true ∧
      ∃ w2, ensureCollection w1 "relationship_themes" "d" =
          (w2, Except.ok h) ∧
        w2.collections = w1.collections) :=
  ⟨rfl, ensure_collection_idempotent initialWorld "relationship_themes" "d" rfl⟩

/-- C4: exactly one error kind is recovered during collection creation:
a create failure whose text contains "already exists" is handled
locally (the step still succeeds by getting the existing collection),
while a failure with any other text is re-raised unchanged and
propagates out of `create_collections`. -/
theorem create_collections_error_policy (w : World) (name desc msg : String)
    (rest : List (Option String)) :
    (w.faults = some msg :: rest →
      containsSub msg "already exists" = false →
      (ensureCollection w name desc).snd = Except.error msg ∧
      (create_collections w).snd = Except.error msg) ∧
    (w.faults = [] → (assocFind w.collections name).isSome = true →
      (ensureCollection w name desc).snd = Except.ok name) := by
  constructor
  · intro hfault hother
    have hens : ∀ nm dsc, (ensureCollection w nm dsc) =
        ({ w with faults := rest, ops := w.ops ++ [OpKind.create] },
         Except.error msg) := by
      intro nm dsc
      simp [ensureCollection, createCollection, hfault, hother]
    refine ⟨by rw [hens name desc], ?_⟩
    simp only [create_collections, hens]
  · intro hfault hpres
    rw [ensure_second w name desc hfault hpres]

/-- Witness for C4 on a store whose next create call fails with
"connection refused". -/
theorem create_collections_error_policy_witness :
    (ensureCollection faultWorld "relationship_themes" "d").snd =
      Except.error "connection refused" ∧
    (create_collections faultWorld).snd =
      Except.error "connection refused" :=
  (create_collections_error_policy faultWorld "relationship_themes" "d"
    "connection refused" []).1 rfl (by decide)

/-- C8: the Verifier performs no writes: `test_similarity_search`
leaves every collection's contents unchanged, makes no embedding-model
call, consumes no fault, and appends only query operations (one per
test query) to the store log. -/
theorem test_similarity_search_read_only
    (rank : Collection → String → Nat → List String × List Metadata × List Rat)
    (w : World) (colls : List (String × String)) :
    (test_similarity_search rank w colls).fst.collections = w.collections ∧
    (test_similarity_search rank w colls).fst.embedCalls = w.embedCalls ∧
    (test_similarity_search rank w colls).fst.faults = w.faults ∧
    (test_similarity_search rank w colls).fst.ops =
      w.ops ++ [OpKind.query, OpKind.query, OpKind.query, OpKind.query] := by
  rw [test_similarity_search_fst]
  exact ⟨rfl, rfl, rfl, rfl⟩

/-- C9: the translator_history collection is created but never
populated: a run of `main` from the empty store succeeds and its
per-collection report gives translator_history a count of 0. -/
theorem main_translator_history_empty
    (embed : List String → List (List Rat))
    (rank : Collection → String → Nat → List String × List Metadata × List Rat) :
    ∃ counts, (main embed rank initialWorld).snd = Except.ok counts ∧
      assocFind counts "translator_history" = some 0 := by
  have hcc : create_collections initialWorld = (ccWorld, Except.ok ccColls) := by
    rfl
  have hA : (assocFind ccColls "relationship_themes").getD "" =
      "relationship_themes" := by decide
  have hB : (assocFind ccColls "game_contexts").getD "" =
      "game_contexts" := by decide
  simp only [main, hcc, hA, hB]
  rw [test_similarity_search_fst, populate_game_contexts_eq,
    populate_relationship_themes_eq]
  simp only [ccColls, List.foldl_cons, List.foldl_nil, collectionCount,
    collections_collectionAdd, List.nil_append, List.cons_append]
  refine ⟨_, rfl, ?_⟩
  rw [assocFind, if_neg (by decide : ¬("relationship_themes" = "translator_history"))]
  rw [assocFind, if_pos rfl]
  rw [assocFind_updateColl_ne _ _ _ _
    (by decide : ("translator_history" : String) ≠ "game_contexts")]
  rw [assocFind_updateColl_ne _ _ _ _
    (by decide : ("translator_history" : String) ≠ "relationship_themes")]
  rw [show assocFind ccWorld.collections "translator_history" =
      some { name := "translator_history",
             meta := [("description", MetaValue.str
               "Historical translator outputs for pattern learning")],
             records := [] } from by decide]
  rfl

end ChromaSetup
